import Mathlib

/-!
Verification of the result-ts library: a shallow embedding of its two
tagged-union container types and their combinators.

The repository carries two historical variants of the library:
  - the class-based variant (`src/result.ts` with classes `Ok`/`Err`,
    `src/option.ts` with classes `Some`/`None`, and the `toString`
    diagnostic helper) — embedded below in namespace `Classic`;
  - the namespace-based variant (`src/result.ts` of the older layout,
    with `Result.Ok`/`Result.Err` factory functions and the
    `UnwrapError` class of `src/error.ts`) — embedded in namespace `NS`.

Methods that can throw are embedded in `Except String`, the error being
the thrown `Error`'s message; all other methods are plain total
functions, mirroring their throw-free bodies.
-/

namespace JS

/-- Model of a JavaScript runtime value as observed by the `toString`
helper: `stringCoerce` is the result of the primitive coercion
`String(val)` (which is total for the values the library handles), and
`jsonStringify` is the outcome of `JSON.stringify(val)`, which either
produces a string or throws (e.g. on a circular object). -/
structure Value where
  stringCoerce : String
  jsonStringify : Except Unit String

/-- `toString` from `src/toString.ts`:
`let value = String(val); if (value === "[object Object]") { try { value = JSON.stringify(val); } catch { } } return value;` -/
def toString (val : Value) : String :=
  let value := val.stringCoerce
  if value = "[object Object]" then
    match val.jsonStringify with
    | .ok s => s
    | .error _ => value
  else
    value

end JS

/-- The JavaScript number `42` as observed by `toString`:
`String(42)` is `"42"` and `JSON.stringify(42)` succeeds with `"42"`. -/
def jsNum42 : JS.Value := ⟨"42", Except.ok ("42")⟩

/-- A circular JavaScript object as observed by `toString`:
`String(obj)` is `"[object Object]"` and `JSON.stringify(obj)` throws. -/
def jsCircular : JS.Value := ⟨"[object Object]", Except.error ()⟩

/-- `needle` occurs at the start of `hay` (character lists). -/
def leadsWith : List Char → List Char → Bool
  | _, [] => true
  | [], _ :: _ => false
  | a :: as, b :: bs => a == b && leadsWith as bs

/-- `needle` occurs contiguously somewhere in `hay` (character lists). -/
def occursIn : List Char → List Char → Bool
  | [], needle => needle.isEmpty
  | a :: as, needle => leadsWith (a :: as) needle || occursIn as needle

/-- The diagnostic string `hay` includes `needle` as a contiguous
substring; this is the formal reading of a message "including" a
stringified payload. -/
def strIncludes (hay needle : String) : Bool :=
  occursIn hay.data needle.data

theorem leadsWith_refl (l : List Char) : leadsWith l l = true := by
  induction l with
  | nil => rfl
  | cons a as ih => simp [leadsWith, ih]

theorem occursIn_self (l : List Char) : occursIn l l = true := by
  cases l with
  | nil => rfl
  | cons a as => simp [occursIn, leadsWith_refl]

theorem occursIn_append_self (p s : List Char) : occursIn (p ++ s) s = true := by
  induction p with
  | nil => exact occursIn_self s
  | cons a as ih => simp [occursIn, ih]

theorem strIncludes_append_self (p s : String) :
    strIncludes (p ++ s) s = true := by
  have h : (p ++ s).data = p.data ++ s.data := rfl
  unfold strIncludes
  rw [h]
  exact occursIn_append_self p.data s.data

/-- `UnwrapError` from `src/error.ts`: its constructor takes an optional
`msg` and passes `msg || "Unwrap failed."` to `Error`. The only falsy
string is the empty string, so both a missing argument and the empty
string produce the default diagnostic. This function gives the message
carried by `new UnwrapError(msg)`. -/
def UnwrapError.message : Option String → String
  | Option.some m => if m = "" then ("Unwrap failed.") else m
  | Option.none => "Unwrap failed."

namespace Classic

/-- `Result<T, E> = Ok<T> | Err<E>` of the class-based `src/result.ts`:
`Ok` holds `value`, `Err` holds `error`. -/
inductive Result (T E : Type) where
  | Ok (value : T)
  | Err (error : E)

/-- `Option<T> = Some<T> | None` of the class-based `src/option.ts`. -/
inductive Option (T : Type) where
  | Some (value : T)
  | None

/-- `Ok.isOk` returns `true`; `Err.isOk` returns `false`. -/
def Result.isOk {T E : Type} : Result T E → Bool
  | .Ok _ => true
  | .Err _ => false

/-- `Ok.isOkAnd` returns `fn(this.value)`; `Err.isOkAnd` returns `false`. -/
def Result.isOkAnd {T E : Type} : Result T E → (T → Bool) → Bool
  | .Ok v, fn => fn v
  | .Err _, _ => false

/-- `Ok.isErr` returns `false`; `Err.isErr` returns `true`. -/
def Result.isErr {T E : Type} : Result T E → Bool
  | .Ok _ => false
  | .Err _ => true

/-- `Ok.isErrAnd` returns `false`; `Err.isErrAnd` returns `fn(this.error)`. -/
def Result.isErrAnd {T E : Type} : Result T E → (E → Bool) → Bool
  | .Ok _, _ => false
  | .Err e, fn => fn e

/-- `Ok.ok` returns `new Some(this.value)`; `Err.ok` returns `new None()`. -/
def Result.ok {T E : Type} : Result T E → Option T
  | .Ok v => .Some v
  | .Err _ => .None

/-- `Ok.err` returns `new None()`; `Err.err` returns `new Some(this.error)`. -/
def Result.err {T E : Type} : Result T E → Option E
  | .Ok _ => .None
  | .Err e => .Some e

/-- `Ok.map` returns `new Ok(mapper(this.value))`; `Err.map` returns `this`. -/
def Result.map {T E U : Type} : Result T E → (T → U) → Result U E
  | .Ok v, mapper => .Ok (mapper v)
  | .Err e, _ => .Err e

/-- `Ok.mapOr` returns `mapper(this.value)`; `Err.mapOr` returns `defaultValue`. -/
def Result.mapOr {T E U : Type} : Result T E → U → (T → U) → U
  | .Ok v, _, mapper => mapper v
  | .Err _, defaultValue, _ => defaultValue

/-- `Ok.mapOrElse` returns `mapper(this.value)`; `Err.mapOrElse` returns
`defaultFn(this.error)`. -/
def Result.mapOrElse {T E U : Type} : Result T E → (E → U) → (T → U) → U
  | .Ok v, _, mapper => mapper v
  | .Err e, defaultFn, _ => defaultFn e

/-- `Ok.mapErr` returns `this`; `Err.mapErr` returns `new Err(mapper(this.error))`. -/
def Result.mapErr {T E F : Type} : Result T E → (E → F) → Result T F
  | .Ok v, _ => .Ok v
  | .Err e, mapper => .Err (mapper e)

/-- `Ok.inspect` calls `fn(this.value)` and returns `this`; `Err.inspect`
returns `this` without calling `fn`. -/
def Result.inspect {T E U : Type} : Result T E → (T → U) → Result T E
  | .Ok v, fn =>
    let _ := fn v
    .Ok v
  | .Err e, _ => .Err e

/-- `Ok.inspectErr` returns `this` without calling `fn`; `Err.inspectErr`
calls `fn(this.error)` and returns `this`. -/
def Result.inspectErr {T E U : Type} : Result T E → (E → U) → Result T E
  | .Ok v, _ => .Ok v
  | .Err e, fn =>
    let _ := fn e
    .Err e

/-- `Ok.expect` returns `this.value`; `Err.expect` throws `new Error(msg)`. -/
def Result.expect {T E : Type} : Result T E → String → Except String T
  | .Ok v, _ => .ok v
  | .Err _, msg => .error msg

/-- `Ok.expectErr` throws `new Error(msg)`; `Err.expectErr` returns `this.error`. -/
def Result.expectErr {T E : Type} : Result T E → String → Except String E
  | .Ok _, msg => .error msg
  | .Err e, _ => .ok e

/-- `Ok.unwrap` returns `this.value`; `Err.unwrap` throws
`new Error(` followed by the template `Error with: ${toString(this.error)}` `)`.
The error payload is a JavaScript value, so it is taken in `JS.Value`. -/
def Result.unwrap {T : Type} : Result T JS.Value → Except String T
  | .Ok v => .ok v
  | .Err e => .error ("Error with: " ++ JS.toString e)

/-- `Ok.unwrapErr` throws `new Error` built from `Error with: ${toString(this.value)}`;
`Err.unwrapErr` returns `this.error`. -/
def Result.unwrapErr {E : Type} : Result JS.Value E → Except String E
  | .Ok v => .error ("Error with: " ++ JS.toString v)
  | .Err e => .ok e

/-- `Ok.unwrapOr` returns `this.value`; `Err.unwrapOr` returns `defaultValue`. -/
def Result.unwrapOr {T E : Type} : Result T E → T → T
  | .Ok v, _ => v
  | .Err _, defaultValue => defaultValue

/-- `Ok.unwrapOrElse` returns `this.value` without calling `op`;
`Err.unwrapOrElse` returns `op(this.error)`. -/
def Result.unwrapOrElse {T E : Type} : Result T E → (E → T) → T
  | .Ok v, _ => v
  | .Err e, op => op e

/-- `Ok.and` returns `res`; `Err.and` returns `this`. -/
def Result.and {T E U : Type} : Result T E → Result U E → Result U E
  | .Ok _, res => res
  | .Err e, _ => .Err e

/-- `Ok.andThen` returns `op(this.value)`; `Err.andThen` returns `this`
without calling `op`. -/
def Result.andThen {T E U : Type} : Result T E → (T → Result U E) → Result U E
  | .Ok v, op => op v
  | .Err e, _ => .Err e

/-- `Ok.or` returns `this`; `Err.or` returns `res`. -/
def Result.or {T E F : Type} : Result T E → Result T F → Result T F
  | .Ok v, _ => .Ok v
  | .Err _, res => res

/-- `Ok.orElse` returns `this` without calling `op`; `Err.orElse` returns
`op(this.error)`. -/
def Result.orElse {T E F : Type} : Result T E → (E → Result T F) → Result T F
  | .Ok v, _ => .Ok v
  | .Err e, op => op e

/-- `Some.isSome` returns `true`; `None.isSome` returns `false`. -/
def Option.isSome {T : Type} : Option T → Bool
  | .Some _ => true
  | .None => false

/-- `Some.isSomeAnd` returns `fn(this.value)`; `None.isSomeAnd` returns `false`. -/
def Option.isSomeAnd {T : Type} : Option T → (T → Bool) → Bool
  | .Some v, fn => fn v
  | .None, _ => false

/-- `Some.isNone` returns `false`; `None.isNone` returns `true`. -/
def Option.isNone {T : Type} : Option T → Bool
  | .Some _ => false
  | .None => true

/-- `Some.expect` returns `this.value`; `None.expect` throws `new Error`
built from the template `Error with: ${msg}`. -/
def Option.expect {T : Type} : Option T → String → Except String T
  | .Some v, _ => .ok v
  | .None, msg => .error ("Error with: " ++ msg)

/-- `Some.unwrap` returns `this.value`; `None.unwrap` throws
`new Error("Error with: None")`. -/
def Option.unwrap {T : Type} : Option T → Except String T
  | .Some v => .ok v
  | .None => .error ("Error with: None")

/-- `Some.unwrapOr` returns `this.value`; `None.unwrapOr` returns `defaultValue`. -/
def Option.unwrapOr {T : Type} : Option T → T → T
  | .Some v, _ => v
  | .None, defaultValue => defaultValue

/-- `Some.unwrapOrElse` returns `this.value` without calling `op`;
`None.unwrapOrElse` returns `op()`. -/
def Option.unwrapOrElse {T : Type} : Option T → (Unit → T) → T
  | .Some v, _ => v
  | .None, op => op ()

/-- `Some.map` returns `new Some(op(this.value))`; `None.map` returns `this`. -/
def Option.map {T U : Type} : Option T → (T → U) → Option U
  | .Some v, op => .Some (op v)
  | .None, _ => .None

/-- `Some.mapOr` returns `mapper(this.value)`; `None.mapOr` returns `defaultValue`. -/
def Option.mapOr {T U : Type} : Option T → U → (T → U) → U
  | .Some v, _, mapper => mapper v
  | .None, defaultValue, _ => defaultValue

/-- `Some.mapOrElse` returns `mapper(this.value)`; `None.mapOrElse` returns
`defaultFn()`. -/
def Option.mapOrElse {T U : Type} : Option T → (Unit → U) → (T → U) → U
  | .Some v, _, mapper => mapper v
  | .None, defaultFn, _ => defaultFn ()

/-- `Some.inspect` calls `fn(this.value)` and returns `this`;
`None.inspect` returns `this` without calling `fn`. -/
def Option.inspect {T U : Type} : Option T → (T → U) → Option T
  | .Some v, fn =>
    let _ := fn v
    .Some v
  | .None, _ => .None

/-- `Some.okOr` returns `new Ok(this.value)`; `None.okOr` returns `new Err(error)`. -/
def Option.okOr {T E : Type} : Option T → E → Result T E
  | .Some v, _ => .Ok v
  | .None, error => .Err error

/-- `Some.okOrElse` returns `new Ok(this.value)` without calling `error`;
`None.okOrElse` returns `new Err(error())`. -/
def Option.okOrElse {T E : Type} : Option T → (Unit → E) → Result T E
  | .Some v, _ => .Ok v
  | .None, error => .Err (error ())

/-- `Some.and` returns `optb`; `None.and` returns `this`. -/
def Option.and {T U : Type} : Option T → Option U → Option U
  | .Some _, optb => optb
  | .None, _ => .None

/-- `Some.andThen` returns `op(this.value)`; `None.andThen` returns `this`
without calling `op`. -/
def Option.andThen {T U : Type} : Option T → (T → Option U) → Option U
  | .Some v, op => op v
  | .None, _ => .None

/-- `Some.filter` returns `predicate(this.value) ? this : new None()`;
`None.filter` returns `this` without calling `predicate`. -/
def Option.filter {T : Type} : Option T → (T → Bool) → Option T
  | .Some v, predicate => if predicate v then .Some v else .None
  | .None, _ => .None

/-- `Some.or` returns `this`; `None.or` returns `optb`. -/
def Option.or {T : Type} : Option T → Option T → Option T
  | .Some v, _ => .Some v
  | .None, optb => optb

/-- `Some.orElse` returns `this` without calling `op`; `None.orElse`
returns `op()`. -/
def Option.orElse {T : Type} : Option T → (Unit → Option T) → Option T
  | .Some v, _ => .Some v
  | .None, op => op ()

/-- `Some.xor` returns `optb.isSome() ? new None() : this`;
`None.xor` returns `optb.isNone() ? this : optb`. -/
def Option.xor {T : Type} : Option T → Option T → Option T
  | .Some v, optb => if Classic.Option.isSome optb then .None else .Some v
  | .None, optb => if Classic.Option.isNone optb then .None else optb

end Classic

namespace NS

/-- `Result<T, E> = Result.Ok<T, E> | Result.Err<T, E>` of the
namespace-based `src/result.ts`: `_Ok` holds `value`, `_Err` holds `error`. -/
inductive Result (T E : Type) where
  | Ok (value : T)
  | Err (error : E)

/-- `_Ok.unwrap` returns `this.value`; `_Err.unwrap` throws
`new UnwrapError()`, whose message is the default diagnostic. -/
def Result.unwrap {T E : Type} : Result T E → Except String T
  | .Ok v => .ok v
  | .Err _ => .error (UnwrapError.message Option.none)

/-- `_Ok.expect` returns `this.value`; `_Err.expect` throws
`new UnwrapError(msg)`. -/
def Result.expect {T E : Type} : Result T E → String → Except String T
  | .Ok v, _ => .ok v
  | .Err _, msg => .error (UnwrapError.message (Option.some msg))

/-- `_Ok.unwrapOrElse` returns `this.value` without calling `fn`;
`_Err.unwrapOrElse` returns `fn()` — the closure is declared `() => T`
and is called with no argument. -/
def Result.unwrapOrElse {T E : Type} : Result T E → (Unit → T) → T
  | .Ok v, _ => v
  | .Err _, fn => fn ()

/-- The same method `_Err.unwrapOrElse` (`return fn();`) observed against
a caller whose closure inspects its first argument, which JavaScript
permits: a call with no argument makes the callee see `undefined`. The
argument the closure observes is modelled as `Option E`, with
`Option.none` standing for the missing argument. -/
def Result.unwrapOrElseJS {T E : Type} : Result T E → (Option E → T) → T
  | .Ok v, _ => v
  | .Err _, fn => fn Option.none

end NS

/-- The closure `(x) => x ?? 0` of a JavaScript caller: it returns its
first argument when one is passed, and `0` when called with none. -/
def obsArg (o : Option Nat) : Nat :=
  match o with
  | Option.some n => n
  | Option.none => 0

/-- C1: Every operation of the class-based Result and Option other than
the raising accessors (`unwrap`, `unwrapErr`, `expect`, `expectErr`) is
total: in the embedding each such operation is a plain total Lean
function into its documented type (no `Except`, because its body has no
throw site), and — assuming the caller-supplied closures return normally,
as the Lean function spaces do — this theorem exhibits, for every
receiver variant and every argument, the value of the documented type
that the operation returns. -/
theorem c1_nonraising_operations_total :
    ∀ (T E U F : Type) (v : T) (e : E)
      (p : T → Bool) (q : E → Bool) (f : T → U) (g : E → F)
      (d : U) (dfn : E → U) (dfn0 : Unit → U)
      (insp : T → U) (inspe : E → U)
      (tdef : T) (tfn : E → T) (tfn0 : Unit → T)
      (ru : Classic.Result U E) (rf : Classic.Result T F)
      (kr : T → Classic.Result U E) (hr : E → Classic.Result T F)
      (ou : Classic.Option U) (ot : Classic.Option T)
      (ko : T → Classic.Option U) (ho : Unit → Classic.Option T)
      (efn : Unit → E),
      Classic.Result.isOk (Classic.Result.Ok v : Classic.Result T E) = true ∧
      Classic.Result.isOk (Classic.Result.Err e : Classic.Result T E) = false ∧
      Classic.Result.isOkAnd (Classic.Result.Ok v : Classic.Result T E) p = p v ∧
      Classic.Result.isOkAnd (Classic.Result.Err e : Classic.Result T E) p = false ∧
      Classic.Result.isErr (Classic.Result.Ok v : Classic.Result T E) = false ∧
      Classic.Result.isErr (Classic.Result.Err e : Classic.Result T E) = true ∧
      Classic.Result.isErrAnd (Classic.Result.Ok v : Classic.Result T E) q = false ∧
      Classic.Result.isErrAnd (Classic.Result.Err e : Classic.Result T E) q = q e ∧
      Classic.Result.ok (Classic.Result.Ok v : Classic.Result T E) = Classic.Option.Some v ∧
      Classic.Result.ok (Classic.Result.Err e : Classic.Result T E) = Classic.Option.None ∧
      Classic.Result.err (Classic.Result.Ok v : Classic.Result T E) = Classic.Option.None ∧
      Classic.Result.err (Classic.Result.Err e : Classic.Result T E) = Classic.Option.Some e ∧
      Classic.Result.map (Classic.Result.Ok v : Classic.Result T E) f = Classic.Result.Ok (f v) ∧
      Classic.Result.map (Classic.Result.Err e : Classic.Result T E) f = Classic.Result.Err e ∧
      Classic.Result.mapOr (Classic.Result.Ok v : Classic.Result T E) d f = f v ∧
      Classic.Result.mapOr (Classic.Result.Err e : Classic.Result T E) d f = d ∧
      Classic.Result.mapOrElse (Classic.Result.Ok v : Classic.Result T E) dfn f = f v ∧
      Classic.Result.mapOrElse (Classic.Result.Err e : Classic.Result T E) dfn f = dfn e ∧
      Classic.Result.mapErr (Classic.Result.Ok v : Classic.Result T E) g = Classic.Result.Ok v ∧
      Classic.Result.mapErr (Classic.Result.Err e : Classic.Result T E) g = Classic.Result.Err (g e) ∧
      Classic.Result.inspect (Classic.Result.Ok v : Classic.Result T E) insp = Classic.Result.Ok v ∧
      Classic.Result.inspect (Classic.Result.Err e : Classic.Result T E) insp = Classic.Result.Err e ∧
      Classic.Result.inspectErr (Classic.Result.Ok v : Classic.Result T E) inspe = Classic.Result.Ok v ∧
      Classic.Result.inspectErr (Classic.Result.Err e : Classic.Result T E) inspe = Classic.Result.Err e ∧
      Classic.Result.unwrapOr (Classic.Result.Ok v : Classic.Result T E) tdef = v ∧
      Classic.Result.unwrapOr (Classic.Result.Err e : Classic.Result T E) tdef = tdef ∧
      Classic.Result.unwrapOrElse (Classic.Result.Ok v : Classic.Result T E) tfn = v ∧
      Classic.Result.unwrapOrElse (Classic.Result.Err e : Classic.Result T E) tfn = tfn e ∧
      Classic.Result.and (Classic.Result.Ok v : Classic.Result T E) ru = ru ∧
      Classic.Result.and (Classic.Result.Err e : Classic.Result T E) ru = Classic.Result.Err e ∧
      Classic.Result.andThen (Classic.Result.Ok v : Classic.Result T E) kr = kr v ∧
      Classic.Result.andThen (Classic.Result.Err e : Classic.Result T E) kr = Classic.Result.Err e ∧
      Classic.Result.or (Classic.Result.Ok v : Classic.Result T E) rf = Classic.Result.Ok v ∧
      Classic.Result.or (Classic.Result.Err e : Classic.Result T E) rf = rf ∧
      Classic.Result.orElse (Classic.Result.Ok v : Classic.Result T E) hr = Classic.Result.Ok v ∧
      Classic.Result.orElse (Classic.Result.Err e : Classic.Result T E) hr = hr e ∧
      Classic.Option.isSome (Classic.Option.Some v) = true ∧
      Classic.Option.isSome (Classic.Option.None : Classic.Option T) = false ∧
      Classic.Option.isSomeAnd (Classic.Option.Some v) p = p v ∧
      Classic.Option.isSomeAnd (Classic.Option.None : Classic.Option T) p = false ∧
      Classic.Option.isNone (Classic.Option.Some v) = false ∧
      Classic.Option.isNone (Classic.Option.None : Classic.Option T) = true ∧
      Classic.Option.unwrapOr (Classic.Option.Some v) tdef = v ∧
      Classic.Option.unwrapOr (Classic.Option.None : Classic.Option T) tdef = tdef ∧
      Classic.Option.unwrapOrElse (Classic.Option.Some v) tfn0 = v ∧
      Classic.Option.unwrapOrElse (Classic.Option.None : Classic.Option T) tfn0 = tfn0 () ∧
      Classic.Option.map (Classic.Option.Some v) f = Classic.Option.Some (f v) ∧
      Classic.Option.map (Classic.Option.None : Classic.Option T) f = Classic.Option.None ∧
      Classic.Option.mapOr (Classic.Option.Some v) d f = f v ∧
      Classic.Option.mapOr (Classic.Option.None : Classic.Option T) d f = d ∧
      Classic.Option.mapOrElse (Classic.Option.Some v) dfn0 f = f v ∧
      Classic.Option.mapOrElse (Classic.Option.None : Classic.Option T) dfn0 f = dfn0 () ∧
      Classic.Option.inspect (Classic.Option.Some v) insp = Classic.Option.Some v ∧
      Classic.Option.inspect (Classic.Option.None : Classic.Option T) insp = Classic.Option.None ∧
      Classic.Option.okOr (Classic.Option.Some v) e = Classic.Result.Ok v ∧
      Classic.Option.okOr (Classic.Option.None : Classic.Option T) e = Classic.Result.Err e ∧
      Classic.Option.okOrElse (Classic.Option.Some v) efn = Classic.Result.Ok v ∧
      Classic.Option.okOrElse (Classic.Option.None : Classic.Option T) efn = Classic.Result.Err (efn ()) ∧
      Classic.Option.and (Classic.Option.Some v) ou = ou ∧
      Classic.Option.and (Classic.Option.None : Classic.Option T) ou = Classic.Option.None ∧
      Classic.Option.andThen (Classic.Option.Some v) ko = ko v ∧
      Classic.Option.andThen (Classic.Option.None : Classic.Option T) ko = Classic.Option.None ∧
      Classic.Option.filter (Classic.Option.Some v) p = (if p v then Classic.Option.Some v else Classic.Option.None) ∧
      Classic.Option.filter (Classic.Option.None : Classic.Option T) p = Classic.Option.None ∧
      Classic.Option.or (Classic.Option.Some v) ot = Classic.Option.Some v ∧
      Classic.Option.or (Classic.Option.None : Classic.Option T) ot = ot ∧
      Classic.Option.orElse (Classic.Option.Some v) ho = Classic.Option.Some v ∧
      Classic.Option.orElse (Classic.Option.None : Classic.Option T) ho = ho () ∧
      Classic.Option.xor (Classic.Option.Some v) ot
        = (if Classic.Option.isSome ot then Classic.Option.None else Classic.Option.Some v) ∧
      Classic.Option.xor (Classic.Option.None : Classic.Option T) ot
        = (if Classic.Option.isNone ot then Classic.Option.None else ot) := by
  intros
  exact ⟨rfl, rfl, rfl, rfl, rfl, rfl, rfl, rfl, rfl, rfl,
    rfl, rfl, rfl, rfl, rfl, rfl, rfl, rfl, rfl, rfl,
    rfl, rfl, rfl, rfl, rfl, rfl, rfl, rfl, rfl, rfl,
    rfl, rfl, rfl, rfl, rfl, rfl, rfl, rfl, rfl, rfl,
    rfl, rfl, rfl, rfl, rfl, rfl, rfl, rfl, rfl, rfl,
    rfl, rfl, rfl, rfl, rfl, rfl, rfl, rfl, rfl, rfl,
    rfl, rfl, rfl, rfl, rfl, rfl, rfl, rfl, rfl, rfl⟩

/-- C2 counterexample: `expect("boom")` on the class-based `None` throws
`new Error` whose message is `"Error with: boom"`, not exactly `"boom"` —
the claim that the diagnostic carries no prefix is false for
`None.expect`. -/
theorem c2_none_expect_counterexample :
    Classic.Option.expect (Classic.Option.None : Classic.Option Nat) ("boom")
      ≠ Except.error ("boom") := by
  intro h
  exact absurd (Except.error.inj h) (by decide)

/-- C2 (amended): `expect(m)` on the class-based `Err` raises with the
diagnostic exactly `m`; `expect(m)` on the class-based `None` raises with
the diagnostic `"Error with: " ++ m` (the prefix comes from the template
in `None.expect`). On `Ok`/`Some` the value is returned. -/
theorem c2_expect_message_amended :
    ∀ (T E : Type) (v : T) (e : E) (m : String),
      Classic.Result.expect (Classic.Result.Ok v : Classic.Result T E) m = Except.ok v ∧
      Classic.Result.expect (Classic.Result.Err e : Classic.Result T E) m = Except.error m ∧
      Classic.Option.expect (Classic.Option.Some v) m = Except.ok v ∧
      Classic.Option.expect (Classic.Option.None : Classic.Option T) m
        = Except.error ("Error with: " ++ m) := by
  intros
  exact ⟨rfl, rfl, rfl, rfl⟩

/-- C3 counterexample: in the namespace-based variant, `unwrap()` on
`Err(42)` throws `new UnwrapError()` whose diagnostic is the default
`"Unwrap failed."`, which does not include the stringified error
(`toString(42)` is `"42"`). -/
theorem c3_ns_unwrap_counterexample :
    NS.Result.unwrap (NS.Result.Err jsNum42 : NS.Result Nat JS.Value)
        = Except.error ("Unwrap failed.") ∧
      strIncludes ("Unwrap failed.") (JS.toString jsNum42) = false := by
  exact ⟨rfl, by decide⟩

/-- C3 (amended): `unwrap()` on `Success(v)` returns `v` without raising,
in both variants. On `Failure(e)`, the class-based variant raises with
the diagnostic `"Error with: " ++ toString(e)`, which includes the
stringified error; the namespace-based variant raises an `UnwrapError`
with the default diagnostic `"Unwrap failed."`, independent of `e`. -/
theorem c3_unwrap_diagnostic_amended :
    ∀ (T : Type) (v : T) (e : JS.Value),
      Classic.Result.unwrap (Classic.Result.Ok v : Classic.Result T JS.Value) = Except.ok v ∧
      Classic.Result.unwrap (Classic.Result.Err e : Classic.Result T JS.Value)
        = Except.error ("Error with: " ++ JS.toString e) ∧
      strIncludes ("Error with: " ++ JS.toString e) (JS.toString e) = true ∧
      NS.Result.unwrap (NS.Result.Ok v : NS.Result T JS.Value) = Except.ok v ∧
      NS.Result.unwrap (NS.Result.Err e : NS.Result T JS.Value)
        = Except.error ("Unwrap failed.") := by
  intro T v e
  exact ⟨rfl, rfl, strIncludes_append_self ("Error with: ") (JS.toString e), rfl, rfl⟩

/-- C4 counterexample: the namespace-based `_Err.unwrapOrElse` runs
`return fn();` — the error is not passed to the closure. Observed by the
JavaScript caller closure `(x) => x ?? 0` on `Err(5)`, the method returns
`0` (the closure saw no argument), while the claim `fn(e)` demands `5`. -/
theorem c4_ns_unwrapOrElse_counterexample :
    NS.Result.unwrapOrElseJS (NS.Result.Err 5 : NS.Result Nat Nat) obsArg
      ≠ obsArg (Option.some 5) := by
  decide

/-- C4 (amended): in the class-based variant, `unwrapOrElse(fn)` on
`Success(v)` returns `v` without invoking `fn`, and on `Failure(e)`
returns `fn(e)`, the error being passed to the closure. In the
namespace-based variant the closure is declared with no parameter and is
invoked with no argument: on `Failure` the method returns `fn()`, and a
closure inspecting its first argument observes a missing argument, not
the error. -/
theorem c4_unwrapOrElse_amended :
    ∀ (T E : Type) (v : T) (e : E) (fn : E → T) (fn0 : Unit → T),
      Classic.Result.unwrapOrElse (Classic.Result.Ok v : Classic.Result T E) fn = v ∧
      Classic.Result.unwrapOrElse (Classic.Result.Err e : Classic.Result T E) fn = fn e ∧
      NS.Result.unwrapOrElse (NS.Result.Ok v : NS.Result T E) fn0 = v ∧
      NS.Result.unwrapOrElse (NS.Result.Err e : NS.Result T E) fn0 = fn0 () ∧
      (∀ (fnJS : Option E → T),
        NS.Result.unwrapOrElseJS (NS.Result.Err e : NS.Result T E) fnJS
          = fnJS Option.none) := by
  intros
  exact ⟨rfl, rfl, rfl, rfl, fun _ => rfl⟩

/-- C5: converting an Option to a Result and back is the identity:
`o.okOr(e).ok() == o` — `Some(v)` maps through `Ok(v)` back to `Some(v)`,
and `None` maps through `Err(e)` back to `None`. -/
theorem c5_okOr_ok_roundtrip :
    ∀ (T E : Type) (o : Classic.Option T) (e : E),
      Classic.Result.ok (Classic.Option.okOr o e) = o := by
  intro T E o e
  cases o <;> rfl

/-- C6: the Result functor laws hold under structural equality:
`r.map(id) == r` and `r.map(f).map(g) == r.map(x => g(f(x)))` for every
Result `r`. -/
theorem c6_map_functor_laws :
    ∀ (T U V E : Type) (r : Classic.Result T E) (f : T → U) (g : U → V),
      Classic.Result.map r (fun x => x) = r ∧
      Classic.Result.map (Classic.Result.map r f) g
        = Classic.Result.map r (fun x => g (f x)) := by
  intro T U V E r f g
  cases r <;> exact ⟨rfl, rfl⟩

/-- C7: closures are short-circuited on the terminal variant:
`Err(e).andThen(f)` equals `Err(e)` for every `f`, and the result does
not depend on `f` (in the pure embedding this is the rendering of "f is
never invoked": `Err.andThen` discards its argument); likewise
`None.filter(p)` equals `None` for every `p`, independently of `p`. -/
theorem c7_short_circuit :
    ∀ (T U E : Type) (e : E) (f : T → Classic.Result U E) (p : T → Bool),
      Classic.Result.andThen (Classic.Result.Err e : Classic.Result T E) f
        = (Classic.Result.Err e : Classic.Result U E) ∧
      (∀ (g : T → Classic.Result U E),
        Classic.Result.andThen (Classic.Result.Err e : Classic.Result T E) f
          = Classic.Result.andThen (Classic.Result.Err e : Classic.Result T E) g) ∧
      Classic.Option.filter (Classic.Option.None : Classic.Option T) p
        = Classic.Option.None ∧
      (∀ (q : T → Bool),
        Classic.Option.filter (Classic.Option.None : Classic.Option T) p
          = Classic.Option.filter (Classic.Option.None : Classic.Option T) q) := by
  intros
  exact ⟨rfl, fun _ => rfl, rfl, fun _ => rfl⟩

/-- C8: `a.xor(b)` is `Some` exactly when one of `a`, `b` is `Some` and
the other is `None`, and then it is that `Some` one; it is `None` when
both are `Some` or both are `None`. The four variant combinations cover
every pair of Options. -/
theorem c8_xor :
    ∀ (T : Type) (v w : T),
      Classic.Option.xor (Classic.Option.Some v) (Classic.Option.None) = Classic.Option.Some v ∧
      Classic.Option.xor (Classic.Option.None : Classic.Option T) (Classic.Option.Some w)
        = Classic.Option.Some w ∧
      Classic.Option.xor (Classic.Option.Some v) (Classic.Option.Some w) = Classic.Option.None ∧
      Classic.Option.xor (Classic.Option.None : Classic.Option T) Classic.Option.None
        = Classic.Option.None := by
  intros
  exact ⟨rfl, rfl, rfl, rfl⟩

/-- C9: constructing `UnwrapError` with the empty string yields the
default diagnostic `"Unwrap failed."` (the empty string is falsy, so
`msg || "Unwrap failed."` picks the default); consequently, in the
namespace-based variant, `expect("")` on an `Err` raises with the
diagnostic `"Unwrap failed."`, not with `""`. -/
theorem c9_empty_expect_default_message :
    ∀ (T E : Type) (e : E),
      UnwrapError.message (Option.some ("")) = "Unwrap failed." ∧
      UnwrapError.message Option.none = "Unwrap failed." ∧
      NS.Result.expect (NS.Result.Err e : NS.Result T E) ("")
        = Except.error ("Unwrap failed.") := by
  intros
  exact ⟨rfl, rfl, rfl⟩

/-- C10: the `toString` diagnostic helper is total (a plain function in
the embedding — the only fallible call, `JSON.stringify`, is wrapped in
`try`/`catch`): it returns `String(val)`, except that when `String(val)`
is `"[object Object]"` it returns `JSON.stringify(val)`, and when
`JSON.stringify` throws it falls back to `"[object Object]"` instead of
propagating the exception. -/
theorem c10_toString_total :
    ∀ (val : JS.Value),
      (val.stringCoerce ≠ "[object Object]" → JS.toString val = val.stringCoerce) ∧
      (∀ (s : String), val.stringCoerce = "[object Object]" →
        val.jsonStringify = Except.ok s → JS.toString val = s) ∧
      (∀ (u : Unit), val.stringCoerce = "[object Object]" →
        val.jsonStringify = Except.error u → JS.toString val = "[object Object]") := by
  intro val
  refine ⟨?_, ?_, ?_⟩
  · intro h
    unfold JS.toString
    simp [h]
  · intro s h1 h2
    unfold JS.toString
    simp [h1, h2]
  · intro u h1 h2
    unfold JS.toString
    simp [h1, h2]

/-- C10 witness: on a circular object — `String(val)` gives
`"[object Object]"` and `JSON.stringify` throws — `toString` returns
`"[object Object]"`. -/
theorem c10_toString_total_witness :
    JS.toString jsCircular = "[object Object]" :=
  (c10_toString_total jsCircular).2.2 () rfl rfl
